import Mathlib

/-!
# Verification of `artisans_scripts` (`src/artisans_scripts/main.py`)

Shallow embedding of the Nexudus coworker-fetching script: the coworker
model and its JSON parsing (`NexudusCoworker.from_json`), the bearer-token
model (`NexudusBearerToken`) with its redacting `repr`, the token manager
(`refresh_bearer_token`, `as_request_headers`) and the paginated fetcher
(`get_all_coworkers`).

Modelling conventions:
- Python `datetime` values are modelled as integer timestamps in
  milliseconds; `timedelta(milliseconds=n)` is integer addition, and
  `datetime.isoformat` is modelled by an injective decimal rendering.
- HTTP traffic is modelled by oracle functions: the listing server maps
  (request index, request) to a response, the token endpoint maps a request
  body string to a response.  `httpx`'s `raise_for_status` raises exactly on
  non-2xx statuses, modelled by `isSuccessStatus`.
- Python exceptions are modelled with `Except`: `httpx.HTTPStatusError`
  with status 401 on the listing endpoint is handled in the loop, any other
  non-success status becomes `FetchError.requestError` (the spec's
  `RequestError`), a non-success status from the token endpoint becomes
  `FetchError.authenticationError` (the spec's `AuthenticationError`), and
  a `ValueError` from `int(...)` becomes `FetchError.valueError`.
- The `while not is_complete` loop is modelled fuel-indexed
  (`fetchLoop`): `.ok (some s)` means the loop exited with final state `s`
  within the given number of iterations, `.ok none` means the fuel ran out
  with the completion flag still unset, `.error e` means an uncaught
  exception propagated to the caller.
- `FetchState.requests` (the sequence of page cursors sent) and
  `FetchState.refreshes` (the number of refresh calls made) are ghost
  instrumentation fields used only to state observable-trace properties;
  no branch of the code reads them.
-/

/-- A raw coworker record as delivered in the listing response's `Records`
array: the fields `FullName`, `Id`, `TeamIds` (a comma-delimited string, or
`null` modelled as `none`), `Email` consumed by `NexudusCoworker.from_json`. -/
structure RawCoworker where
  fullName : String
  id : Int
  teamIds : Option String
  email : String
deriving DecidableEq

/-- `NexudusCoworker` (attrs frozen class): `display_name`, `coworker_id`,
`team_ids` (a Python `set[int]`, modelled as `Finset Int`), `email_address`. -/
structure NexudusCoworker where
  display_name : String
  coworker_id : Int
  team_ids : Finset Int
  email_address : String
deriving DecidableEq

/-- Python's `str.strip()` on a character list: drop leading and trailing
whitespace. -/
def pyStrip (cs : List Char) : List Char :=
  ((cs.dropWhile Char.isWhitespace).reverse.dropWhile Char.isWhitespace).reverse

/-- Python's `str.split(sep)` for a one-character separator, on character
lists: always at least one (possibly empty) segment, with an empty segment
between, before or after adjacent separators (`"3,".split(",") == ["3",""]`,
`",".split(",") == ["",""]`). -/
def pySplitChars (sep : Char) : List Char → List (List Char)
  | [] => [[]]
  | c :: rest =>
    match pySplitChars sep rest with
    | [] => if c = sep then [[], []] else [[c]]
    | h :: t => if c = sep then [] :: h :: t else (c :: h) :: t

/-- Python's `str.split(",")` as used by `NexudusCoworker.from_json`. -/
def pySplit (sep : Char) (s : String) : List String :=
  (pySplitChars sep s.data).map String.mk

/-- Python's builtin `int(str)`: strip surrounding whitespace, then an
optional sign followed by a nonempty digit string; anything else raises
`ValueError`, modelled as `none`.  (Python also accepts `_` digit-group
separators, which no input in this repository exercises; they are not
modelled.) -/
def pyInt (s : String) : Option Int :=
  let cs := pyStrip s.data
  let signAndDigits : Int × List Char :=
    match cs with
    | '+' :: rest => (1, rest)
    | '-' :: rest => (-1, rest)
    | _ => (1, cs)
  let sign := signAndDigits.1
  let ds := signAndDigits.2
  if ds ≠ [] ∧ ds.all Char.isDigit then
    some (sign * (ds.foldl (fun a c => 10 * a + (c.toNat - 48)) 0 : Nat))
  else
    none

/-- `NexudusCoworker.from_json`: if the `TeamIds` value is truthy (neither
`null` nor the empty string) it is split on `","` and each segment is parsed
with `int(...)` into a set; otherwise the team set is empty.  A segment that
`int(...)` rejects raises `ValueError`, modelled as `none`. -/
def NexudusCoworker.from_json (r : RawCoworker) : Option NexudusCoworker :=
  let parsedTeamIds : Option (Finset Int) :=
    match r.teamIds with
    | none => some ∅
    | some s =>
      if s = "" then some ∅
      else ((pySplit ',' s).mapM pyInt).map List.toFinset
  parsedTeamIds.map fun team_ids =>
    { display_name := r.fullName
      coworker_id := r.id
      team_ids := team_ids
      email_address := r.email }

/-- `NexudusBearerToken` (attrs frozen class).  `issued_at` and `expires_at`
are `datetime`s, modelled as integer millisecond timestamps. -/
structure NexudusBearerToken where
  access_token : String
  refresh_token : String
  expires_in_ms : Int
  issued_at : Int
  expires_at : Int
deriving DecidableEq

/-- The `repr` callable attached to the two secret fields:
`lambda _value: "****"`, a fixed redaction marker independent of the value. -/
def redactSecret (_value : String) : String := "****"

/-- `datetime.isoformat`, modelled as the decimal rendering of the
millisecond timestamp (injective, like the real ISO rendering). -/
def isoformat (value : Int) : String := toString value

/-- The attrs-generated `repr` of a `NexudusBearerToken`: each secret field
is rendered through `redactSecret`, the timestamps through their
`isoformat` callables. -/
def tokenRepr (t : NexudusBearerToken) : String :=
  "NexudusBearerToken(access_token=" ++ redactSecret t.access_token ++
    ", refresh_token=" ++ redactSecret t.refresh_token ++
    ", expires_in_ms=" ++ toString t.expires_in_ms ++
    ", issued_at=" ++ isoformat t.issued_at ++
    ", expires_at=" ++ isoformat t.expires_at ++ ")"

/-- The JSON body of a token-endpoint response: the fields `access_token`,
`refresh_token`, `expires_in` consumed by `NexudusBearerToken.from_json`. -/
structure TokenJson where
  access_token : String
  refresh_token : String
  expires_in : Int
deriving DecidableEq

/-- `NexudusBearerToken.from_json`: `expires_at` is `current_time +
timedelta(milliseconds=expires_in)`; `now` is the caller-supplied clock. -/
def NexudusBearerToken.from_json (j : TokenJson) (now : Int) : NexudusBearerToken :=
  { access_token := j.access_token
    refresh_token := j.refresh_token
    expires_in_ms := j.expires_in
    issued_at := now
    expires_at := now + j.expires_in }

/-- A token-endpoint HTTP response: status code plus body (the body is
consumed only when the status is a success). -/
structure TokenResponse where
  status : Nat
  body : TokenJson

/-- `httpx.Response.raise_for_status` raises unless the status is 2xx. -/
def isSuccessStatus (status : Nat) : Bool :=
  200 ≤ status && status < 300

/-- The Python exceptions that can escape the modelled operations:
`RequestError` (a non-401 non-success listing status, surfaced as
`httpx.HTTPStatusError` and classified `RequestError` by the spec),
`AuthenticationError` (a non-success token-endpoint status), and
`ValueError` (a `TeamIds` segment rejected by `int(...)`). -/
inductive FetchError where
  | requestError (status : Nat)
  | authenticationError (status : Nat)
  | valueError
deriving DecidableEq

/-- The body string built by `refresh_bearer_token`:
`f"grant_type=refresh_token&refresh_token=f{...refresh_token}"`.
Note the f-string's literal `f` before the interpolation. -/
def refresh_request_content (t : NexudusBearerToken) : String :=
  "grant_type=refresh_token&refresh_token=f" ++ t.refresh_token

/-- The refresh request body as the spec describes it (§4.1, §6): fields
`grant_type=refresh_token` and `refresh_token` set to the held token's
refresh-token value verbatim.  Used only to compare the code's
`refresh_request_content` against the spec's words. -/
def specRefreshRequestContent (t : NexudusBearerToken) : String :=
  "grant_type=refresh_token&refresh_token=" ++ t.refresh_token

/-- `NexudusBearerTokenManager.refresh_bearer_token`: POST the refresh body
to the token endpoint, `raise_for_status`, and replace the held token with
the parsed response.  Returns (method result, held token after the call):
when `raise_for_status` raises, the assignment to `current_bearer_token`
never runs, so the held token is returned unchanged alongside the error. -/
def refresh_bearer_token (tokenServer : String → TokenResponse) (now : Int)
    (current : NexudusBearerToken) : Except FetchError Unit × NexudusBearerToken :=
  let resp := tokenServer (refresh_request_content current)
  if isSuccessStatus resp.status then
    (Except.ok (), NexudusBearerToken.from_json resp.body now)
  else
    (Except.error (FetchError.authenticationError resp.status), current)

/-- `NexudusBearerTokenManager.as_request_headers`: the value of the single
`authorization` header, `f"Bearer {...access_token}"`. -/
def as_request_headers (t : NexudusBearerToken) : String :=
  "Bearer " ++ t.access_token

/-- One GET to the listing endpoint, as the code builds it: the mutable
`page` cursor, the fixed query parameters `size=25`, `orderBy="Id"`,
`Coworker_Tariff="notnull"`, and the manager's authorization header. -/
structure ListingRequest where
  page : Int
  size : Nat
  orderBy : String
  coworkerTariff : String
  authorization : String

/-- The JSON body of a listing response: the fields `CurrentPage`,
`TotalPages`, `HasNextPage`, `TotalItems`, `Records` that
`get_all_coworkers` consumes. -/
structure ListingPage where
  currentPage : Int
  totalPages : Int
  hasNextPage : Bool
  totalItems : Int
  records : List RawCoworker

/-- A listing-endpoint HTTP response: status code plus body (the body is
consumed only when the status is a success). -/
structure ListingResponse where
  status : Nat
  body : ListingPage

/-- The local state of one `get_all_coworkers` call: the mutable `page`
query parameter, the accumulator, the loop flag, the page counter, the
captured expected total, and the manager's held token.  `requests` and
`refreshes` are ghost trace fields (cursors sent, refresh calls made). -/
structure FetchState where
  page : Int
  all_coworkers : List NexudusCoworker
  is_complete : Bool
  pages_fetched : Nat
  expected_records : Option Int
  token : NexudusBearerToken
  requests : List Int
  refreshes : Nat

/-- `max_pages = 5`, the hard page cap. -/
def max_pages : Nat := 5

/-- The initial loop state of `get_all_coworkers`: cursor 1, empty
accumulator, flag unset, zero pages fetched, expected total unknown. -/
def initState (tok : NexudusBearerToken) : FetchState :=
  { page := 1
    all_coworkers := []
    is_complete := false
    pages_fetched := 0
    expected_records := none
    token := tok
    requests := []
    refreshes := 0 }

/-- The GET request `get_all_coworkers` issues from state `s`: the current
`page` cursor, the fixed query parameters, and the manager's current
authorization header. -/
def mkListingRequest (s : FetchState) : ListingRequest :=
  { page := s.page
    size := 25
    orderBy := "Id"
    coworkerTariff := "notnull"
    authorization := as_request_headers s.token }

/-- One iteration of the `while not is_complete` body of
`get_all_coworkers`.  The listing server is an oracle indexed by the number
of listing requests already issued.  On a 2xx response: capture
`TotalItems` once, increment `pages_fetched`, set the completion flag when
`pages_fetched >= max_pages` or `HasNextPage` is false and otherwise
advance the cursor to `CurrentPage + 1`, then map `Records` through
`NexudusCoworker.from_json` and append.  On a 401: call
`refresh_bearer_token` and continue with the state otherwise untouched
(a failed refresh propagates as `AuthenticationError`).  On any other
non-success status: re-raise, modelled as `RequestError`. -/
def fetchStep (listServer : Nat → ListingRequest → ListingResponse)
    (tokenServer : String → TokenResponse) (now : Int)
    (s : FetchState) : Except FetchError FetchState :=
  let resp := listServer s.requests.length (mkListingRequest s)
  let s1 := { s with requests := s.requests ++ [s.page] }
  if isSuccessStatus resp.status then
    let current_page := resp.body.currentPage
    let has_next_page := resp.body.hasNextPage
    let expected_records :=
      match s1.expected_records with
      | none => some resp.body.totalItems
      | some v => some v
    let pages_fetched := s1.pages_fetched + 1
    let flagAndCursor : Bool × Int :=
      if max_pages ≤ pages_fetched || !has_next_page then (true, s1.page)
      else (false, current_page + 1)
    match resp.body.records.mapM NexudusCoworker.from_json with
    | none => Except.error FetchError.valueError
    | some current_page_coworkers =>
      Except.ok { s1 with
        expected_records := expected_records
        pages_fetched := pages_fetched
        is_complete := flagAndCursor.1
        page := flagAndCursor.2
        all_coworkers := s1.all_coworkers ++ current_page_coworkers }
  else if resp.status = 401 then
    match refresh_bearer_token tokenServer now s1.token with
    | (Except.ok _, newTok) =>
      Except.ok { s1 with token := newTok, refreshes := s1.refreshes + 1 }
    | (Except.error e, _) => Except.error e
  else
    Except.error (FetchError.requestError resp.status)

/-- The `while not is_complete` loop, fuel-indexed: `.ok (some s)` means
the loop exited with final state `s` within `fuel` iterations, `.ok none`
means the completion flag was still unset when the fuel ran out, `.error`
means an exception propagated out of `get_all_coworkers`. -/
def fetchLoop (listServer : Nat → ListingRequest → ListingResponse)
    (tokenServer : String → TokenResponse) (now : Int) :
    Nat → FetchState → Except FetchError (Option FetchState)
  | 0, s => if s.is_complete then Except.ok (some s) else Except.ok none
  | fuel + 1, s =>
    if s.is_complete then Except.ok (some s)
    else
      match fetchStep listServer tokenServer now s with
      | Except.error e => Except.error e
      | Except.ok s2 => fetchLoop listServer tokenServer now fuel s2

/-- `n` successive executions of the loop body from a given state, for
stating what holds after `n` iterations of a non-terminating run. -/
def fetchIterate (listServer : Nat → ListingRequest → ListingResponse)
    (tokenServer : String → TokenResponse) (now : Int) :
    Nat → FetchState → Except FetchError FetchState
  | 0, s => Except.ok s
  | n + 1, s =>
    match fetchStep listServer tokenServer now s with
    | Except.error e => Except.error e
    | Except.ok s2 => fetchIterate listServer tokenServer now n s2

/-- `get_all_coworkers`: run the loop from the initial state and return the
accumulated `all_coworkers` once the completion flag is set (`.ok (some l)`
within the given fuel; `.ok none` if the flag is still unset). -/
def get_all_coworkers (listServer : Nat → ListingRequest → ListingResponse)
    (tokenServer : String → TokenResponse) (now : Int) (fuel : Nat)
    (tok : NexudusBearerToken) : Except FetchError (Option (List NexudusCoworker)) :=
  (fetchLoop listServer tokenServer now fuel (initState tok)).map
    (Option.map FetchState.all_coworkers)

/-! ## Server simulations used by the claims -/

/-- The body attached to a non-success simulated response; never consumed,
since the code reads a response body only after `raise_for_status` passes. -/
def emptyListingPage : ListingPage :=
  { currentPage := 0, totalPages := 0, hasNextPage := false, totalItems := 0, records := [] }

/-- A well-behaved three-page server: every request for page `p` succeeds
with `CurrentPage = p`, `TotalPages = 3`, `HasNextPage` exactly when
`p < 3`, and records `recs p`. -/
def threePageServer (recs : Int → List RawCoworker) (totalItems : Int) :
    Nat → ListingRequest → ListingResponse :=
  fun _i req =>
    { status := 200
      body := { currentPage := req.page
                totalPages := 3
                hasNextPage := decide (req.page < 3)
                totalItems := totalItems
                records := recs req.page } }

/-- A server that always reports `HasNextPage = true`: every request for
page `p` succeeds with `CurrentPage = p` and records `recs p`. -/
def endlessServer (recs : Int → List RawCoworker) (totalPages totalItems : Int) :
    Nat → ListingRequest → ListingResponse :=
  fun _i req =>
    { status := 200
      body := { currentPage := req.page
                totalPages := totalPages
                hasNextPage := true
                totalItems := totalItems
                records := recs req.page } }

/-- The three-page server of `threePageServer`, except that the second
listing request overall (index 1, the first request for page 2) is answered
with HTTP 401. -/
def threePageServer401 (recs : Int → List RawCoworker) (totalItems : Int) :
    Nat → ListingRequest → ListingResponse :=
  fun i req =>
    if i = 1 then { status := 401, body := emptyListingPage }
    else threePageServer recs totalItems i req

/-- A listing server that answers every request with HTTP 401. -/
def always401Server : Nat → ListingRequest → ListingResponse :=
  fun _i _req => { status := 401, body := emptyListingPage }

/-- A listing server that answers every request with HTTP 500. -/
def always500Server : Nat → ListingRequest → ListingResponse :=
  fun _i _req => { status := 500, body := emptyListingPage }

/-- A token endpoint that answers every refresh request with HTTP 200 and
the body `tj`. -/
def okTokenServer (tj : TokenJson) : String → TokenResponse :=
  fun _content => { status := 200, body := tj }

/-- A token endpoint that answers every refresh request with the given
non-success-intended status and the body `tj`. -/
def constTokenServer (status : Nat) (tj : TokenJson) : String → TokenResponse :=
  fun _content => { status := status, body := tj }

/-- A concrete token body for witnesses. -/
def demoTokenJson : TokenJson :=
  { access_token := "fresh-access", refresh_token := "fresh-refresh", expires_in := 1000 }

/-- A concrete held token for witnesses. -/
def demoToken : NexudusBearerToken :=
  { access_token := "acc", refresh_token := "ref", expires_in_ms := 10, issued_at := 0, expires_at := 10 }

/-- A concrete per-page record table for witnesses: page `p` carries one
record with id `p` and no teams. -/
def demoRecs (p : Int) : List RawCoworker :=
  [{ fullName := "person", id := p, teamIds := none, email := "person@example.com" }]

/-! ## Loop helper lemmas -/

/-- Once the completion flag is set the loop exits immediately, whatever
fuel remains. -/
lemma fetchLoop_of_complete (listServer : Nat → ListingRequest → ListingResponse)
    (tokenServer : String → TokenResponse) (now : Int) (n : Nat) (s : FetchState)
    (h : s.is_complete = true) :
    fetchLoop listServer tokenServer now n s = Except.ok (some s) := by
  cases n <;> simp [fetchLoop, h]

/-- With the flag unset, one unit of fuel runs one successful loop body. -/
lemma fetchLoop_step (listServer : Nat → ListingRequest → ListingResponse)
    (tokenServer : String → TokenResponse) (now : Int) (n : Nat) (s s' : FetchState)
    (hflag : s.is_complete = false)
    (hstep : fetchStep listServer tokenServer now s = Except.ok s') :
    fetchLoop listServer tokenServer now (n + 1) s =
      fetchLoop listServer tokenServer now n s' := by
  simp [fetchLoop, hflag, hstep]

/-- With the flag unset, a failing loop body propagates its exception. -/
lemma fetchLoop_error (listServer : Nat → ListingRequest → ListingResponse)
    (tokenServer : String → TokenResponse) (now : Int) (n : Nat) (s : FetchState)
    (e : FetchError) (hflag : s.is_complete = false)
    (hstep : fetchStep listServer tokenServer now s = Except.error e) :
    fetchLoop listServer tokenServer now (n + 1) s = Except.error e := by
  simp [fetchLoop, hflag, hstep]

/-! ## Claims -/

/-- C1: for every server simulation of three pages answering
`HasNextPage = true, true, false`, `get_all_coworkers` issues exactly three
listing requests whose page-cursor sequence is `1, 2, 3`, and returns all
records of all three pages mapped to `NexudusCoworker` models, in page
order and, within each page, in the response's record order. -/
theorem spec_C1_three_page_fetch
    (recs : Int → List RawCoworker) (totalItems : Int)
    (tokenServer : String → TokenResponse) (now : Int) (tok : NexudusBearerToken)
    (c1 c2 c3 : List NexudusCoworker)
    (h1 : (recs 1).mapM NexudusCoworker.from_json = some c1)
    (h2 : (recs 2).mapM NexudusCoworker.from_json = some c2)
    (h3 : (recs 3).mapM NexudusCoworker.from_json = some c3)
    (fuel : Nat) :
    ∃ s : FetchState,
      fetchLoop (threePageServer recs totalItems) tokenServer now (fuel + 3)
          (initState tok) = Except.ok (some s) ∧
      s.requests = [1, 2, 3] ∧
      s.all_coworkers = c1 ++ c2 ++ c3 ∧
      get_all_coworkers (threePageServer recs totalItems) tokenServer now (fuel + 3) tok =
        Except.ok (some (c1 ++ c2 ++ c3)) := by
  have h1l : List.mapM.loop NexudusCoworker.from_json (recs 1) [] = some c1 := h1
  have h2l : List.mapM.loop NexudusCoworker.from_json (recs 2) [] = some c2 := h2
  have h3l : List.mapM.loop NexudusCoworker.from_json (recs 3) [] = some c3 := h3
  have e1 : fetchStep (threePageServer recs totalItems) tokenServer now (initState tok) =
      Except.ok { page := 2, all_coworkers := c1, is_complete := false, pages_fetched := 1,
                  expected_records := some totalItems, token := tok, requests := [1],
                  refreshes := 0 } := by
    simp [fetchStep, initState, threePageServer, mkListingRequest, isSuccessStatus, max_pages, h1l]
  have e2 : fetchStep (threePageServer recs totalItems) tokenServer now
      { page := 2, all_coworkers := c1, is_complete := false, pages_fetched := 1,
        expected_records := some totalItems, token := tok, requests := [1], refreshes := 0 } =
      Except.ok { page := 3, all_coworkers := c1 ++ c2, is_complete := false, pages_fetched := 2,
                  expected_records := some totalItems, token := tok, requests := [1, 2],
                  refreshes := 0 } := by
    simp [fetchStep, threePageServer, mkListingRequest, isSuccessStatus, max_pages, h2l]
  have e3 : fetchStep (threePageServer recs totalItems) tokenServer now
      { page := 3, all_coworkers := c1 ++ c2, is_complete := false, pages_fetched := 2,
        expected_records := some totalItems, token := tok, requests := [1, 2], refreshes := 0 } =
      Except.ok { page := 3, all_coworkers := c1 ++ c2 ++ c3, is_complete := true,
                  pages_fetched := 3, expected_records := some totalItems, token := tok,
                  requests := [1, 2, 3], refreshes := 0 } := by
    simp [fetchStep, threePageServer, mkListingRequest, isSuccessStatus, max_pages, h3l]
  have hrun : fetchLoop (threePageServer recs totalItems) tokenServer now (fuel + 3)
      (initState tok) =
      Except.ok (some { page := 3, all_coworkers := c1 ++ c2 ++ c3, is_complete := true,
                        pages_fetched := 3, expected_records := some totalItems, token := tok,
                        requests := [1, 2, 3], refreshes := 0 }) := by
    have l1 := fetchLoop_step (threePageServer recs totalItems) tokenServer now (fuel + 2)
      _ _ rfl e1
    have l2 := fetchLoop_step (threePageServer recs totalItems) tokenServer now (fuel + 1)
      _ _ rfl e2
    have l3 := fetchLoop_step (threePageServer recs totalItems) tokenServer now fuel
      _ _ rfl e3
    have l4 := fetchLoop_of_complete (threePageServer recs totalItems) tokenServer now fuel
      { page := 3, all_coworkers := c1 ++ c2 ++ c3, is_complete := true,
        pages_fetched := 3, expected_records := some totalItems, token := tok,
        requests := [1, 2, 3], refreshes := 0 } rfl
    exact l1.trans (l2.trans (l3.trans l4))
  exact ⟨_, hrun, rfl, rfl, by simp [get_all_coworkers, hrun, Except.map]⟩

/-- C1 witness: a concrete three-page run (one record per page) issues the
cursor sequence `1, 2, 3` and returns the three records in order. -/
theorem spec_C1_three_page_fetch_witness :
    ∃ s : FetchState,
      fetchLoop (threePageServer demoRecs 3) (okTokenServer demoTokenJson) 0 (0 + 3)
          (initState demoToken) = Except.ok (some s) ∧
      s.requests = [1, 2, 3] ∧
      s.all_coworkers =
        [⟨"person", 1, ∅, "person@example.com"⟩] ++ [⟨"person", 2, ∅, "person@example.com"⟩] ++
          [⟨"person", 3, ∅, "person@example.com"⟩] ∧
      get_all_coworkers (threePageServer demoRecs 3) (okTokenServer demoTokenJson) 0 (0 + 3)
          demoToken =
        Except.ok (some
          ([⟨"person", 1, ∅, "person@example.com"⟩] ++ [⟨"person", 2, ∅, "person@example.com"⟩] ++
            [⟨"person", 3, ∅, "person@example.com"⟩])) :=
  spec_C1_three_page_fetch demoRecs 3 (okTokenServer demoTokenJson) 0 demoToken
    _ _ _ (by simp [demoRecs, NexudusCoworker.from_json]; rfl)
    (by simp [demoRecs, NexudusCoworker.from_json]; rfl)
    (by simp [demoRecs, NexudusCoworker.from_json]; rfl) 0

/-- C2: against a server that always answers successfully with
`HasNextPage = true`, `get_all_coworkers` terminates after fetching exactly
5 pages (the hard page cap `max_pages`), returning the records accumulated
from those 5 pages. -/
theorem spec_C2_page_cap
    (recs : Int → List RawCoworker) (totalPages totalItems : Int)
    (tokenServer : String → TokenResponse) (now : Int) (tok : NexudusBearerToken)
    (c1 c2 c3 c4 c5 : List NexudusCoworker)
    (h1 : (recs 1).mapM NexudusCoworker.from_json = some c1)
    (h2 : (recs 2).mapM NexudusCoworker.from_json = some c2)
    (h3 : (recs 3).mapM NexudusCoworker.from_json = some c3)
    (h4 : (recs 4).mapM NexudusCoworker.from_json = some c4)
    (h5 : (recs 5).mapM NexudusCoworker.from_json = some c5)
    (fuel : Nat) :
    ∃ s : FetchState,
      fetchLoop (endlessServer recs totalPages totalItems) tokenServer now (fuel + 5)
          (initState tok) = Except.ok (some s) ∧
      s.pages_fetched = 5 ∧
      s.requests = [1, 2, 3, 4, 5] ∧
      s.all_coworkers = c1 ++ c2 ++ c3 ++ c4 ++ c5 ∧
      get_all_coworkers (endlessServer recs totalPages totalItems) tokenServer now (fuel + 5)
          tok = Except.ok (some (c1 ++ c2 ++ c3 ++ c4 ++ c5)) := by
  have h1l : List.mapM.loop NexudusCoworker.from_json (recs 1) [] = some c1 := h1
  have h2l : List.mapM.loop NexudusCoworker.from_json (recs 2) [] = some c2 := h2
  have h3l : List.mapM.loop NexudusCoworker.from_json (recs 3) [] = some c3 := h3
  have h4l : List.mapM.loop NexudusCoworker.from_json (recs 4) [] = some c4 := h4
  have h5l : List.mapM.loop NexudusCoworker.from_json (recs 5) [] = some c5 := h5
  have e1 : fetchStep (endlessServer recs totalPages totalItems) tokenServer now
      (initState tok) =
      Except.ok { page := 2, all_coworkers := c1, is_complete := false, pages_fetched := 1,
                  expected_records := some totalItems, token := tok, requests := [1],
                  refreshes := 0 } := by
    simp [fetchStep, initState, endlessServer, mkListingRequest, isSuccessStatus, max_pages, h1l]
  have e2 : fetchStep (endlessServer recs totalPages totalItems) tokenServer now
      { page := 2, all_coworkers := c1, is_complete := false, pages_fetched := 1,
        expected_records := some totalItems, token := tok, requests := [1], refreshes := 0 } =
      Except.ok { page := 3, all_coworkers := c1 ++ c2, is_complete := false, pages_fetched := 2,
                  expected_records := some totalItems, token := tok, requests := [1, 2],
                  refreshes := 0 } := by
    simp [fetchStep, endlessServer, mkListingRequest, isSuccessStatus, max_pages, h2l]
  have e3 : fetchStep (endlessServer recs totalPages totalItems) tokenServer now
      { page := 3, all_coworkers := c1 ++ c2, is_complete := false, pages_fetched := 2,
        expected_records := some totalItems, token := tok, requests := [1, 2], refreshes := 0 } =
      Except.ok { page := 4, all_coworkers := c1 ++ c2 ++ c3, is_complete := false,
                  pages_fetched := 3, expected_records := some totalItems, token := tok,
                  requests := [1, 2, 3], refreshes := 0 } := by
    simp [fetchStep, endlessServer, mkListingRequest, isSuccessStatus, max_pages, h3l]
  have e4 : fetchStep (endlessServer recs totalPages totalItems) tokenServer now
      { page := 4, all_coworkers := c1 ++ c2 ++ c3, is_complete := false, pages_fetched := 3,
        expected_records := some totalItems, token := tok, requests := [1, 2, 3],
        refreshes := 0 } =
      Except.ok { page := 5, all_coworkers := c1 ++ c2 ++ c3 ++ c4, is_complete := false,
                  pages_fetched := 4, expected_records := some totalItems, token := tok,
                  requests := [1, 2, 3, 4], refreshes := 0 } := by
    simp [fetchStep, endlessServer, mkListingRequest, isSuccessStatus, max_pages, h4l]
  have e5 : fetchStep (endlessServer recs totalPages totalItems) tokenServer now
      { page := 5, all_coworkers := c1 ++ c2 ++ c3 ++ c4, is_complete := false,
        pages_fetched := 4, expected_records := some totalItems, token := tok,
        requests := [1, 2, 3, 4], refreshes := 0 } =
      Except.ok { page := 5, all_coworkers := c1 ++ c2 ++ c3 ++ c4 ++ c5, is_complete := true,
                  pages_fetched := 5, expected_records := some totalItems, token := tok,
                  requests := [1, 2, 3, 4, 5], refreshes := 0 } := by
    simp [fetchStep, endlessServer, mkListingRequest, isSuccessStatus, max_pages, h5l]
  have hrun : fetchLoop (endlessServer recs totalPages totalItems) tokenServer now (fuel + 5)
      (initState tok) =
      Except.ok (some { page := 5, all_coworkers := c1 ++ c2 ++ c3 ++ c4 ++ c5,
                        is_complete := true, pages_fetched := 5,
                        expected_records := some totalItems, token := tok,
                        requests := [1, 2, 3, 4, 5], refreshes := 0 }) := by
    have l1 := fetchLoop_step (endlessServer recs totalPages totalItems) tokenServer now
      (fuel + 4) _ _ rfl e1
    have l2 := fetchLoop_step (endlessServer recs totalPages totalItems) tokenServer now
      (fuel + 3) _ _ rfl e2
    have l3 := fetchLoop_step (endlessServer recs totalPages totalItems) tokenServer now
      (fuel + 2) _ _ rfl e3
    have l4 := fetchLoop_step (endlessServer recs totalPages totalItems) tokenServer now
      (fuel + 1) _ _ rfl e4
    have l5 := fetchLoop_step (endlessServer recs totalPages totalItems) tokenServer now
      fuel _ _ rfl e5
    have l6 := fetchLoop_of_complete (endlessServer recs totalPages totalItems) tokenServer now
      fuel { page := 5, all_coworkers := c1 ++ c2 ++ c3 ++ c4 ++ c5, is_complete := true,
             pages_fetched := 5, expected_records := some totalItems, token := tok,
             requests := [1, 2, 3, 4, 5], refreshes := 0 } rfl
    exact l1.trans (l2.trans (l3.trans (l4.trans (l5.trans l6))))
  exact ⟨_, hrun, rfl, rfl, rfl, by simp [get_all_coworkers, hrun, Except.map]⟩

/-- C2 witness: a concrete endless-`HasNextPage` run (one record per page)
stops after exactly 5 pages with cursor trace `1..5`. -/
theorem spec_C2_page_cap_witness :
    ∃ s : FetchState,
      fetchLoop (endlessServer demoRecs 100 125) (okTokenServer demoTokenJson) 0 (0 + 5)
          (initState demoToken) = Except.ok (some s) ∧
      s.pages_fetched = 5 ∧
      s.requests = [1, 2, 3, 4, 5] ∧
      s.all_coworkers =
        [⟨"person", 1, ∅, "person@example.com"⟩] ++ [⟨"person", 2, ∅, "person@example.com"⟩] ++
          [⟨"person", 3, ∅, "person@example.com"⟩] ++ [⟨"person", 4, ∅, "person@example.com"⟩] ++
          [⟨"person", 5, ∅, "person@example.com"⟩] ∧
      get_all_coworkers (endlessServer demoRecs 100 125) (okTokenServer demoTokenJson) 0 (0 + 5)
          demoToken =
        Except.ok (some
          ([⟨"person", 1, ∅, "person@example.com"⟩] ++ [⟨"person", 2, ∅, "person@example.com"⟩] ++
            [⟨"person", 3, ∅, "person@example.com"⟩] ++ [⟨"person", 4, ∅, "person@example.com"⟩] ++
            [⟨"person", 5, ∅, "person@example.com"⟩])) :=
  spec_C2_page_cap demoRecs 100 125 (okTokenServer demoTokenJson) 0 demoToken
    _ _ _ _ _ (by simp [demoRecs, NexudusCoworker.from_json]; rfl)
    (by simp [demoRecs, NexudusCoworker.from_json]; rfl)
    (by simp [demoRecs, NexudusCoworker.from_json]; rfl)
    (by simp [demoRecs, NexudusCoworker.from_json]; rfl)
    (by simp [demoRecs, NexudusCoworker.from_json]; rfl) 0

/-- C3: with a 401 on the first request for page 2 and a successful refresh,
the fetcher performs exactly one refresh call, re-requests the same page
cursor (trace `1, 2, 2, 3`, not page 3), the 401-handling iteration leaves
the accumulated records, the cursor and the pages-fetched counter
untouched, and the final accumulation contains every fetched record exactly
once (`c1 ++ c2 ++ c3`, no duplicates or omissions). -/
theorem spec_C3_retry_after_401
    (recs : Int → List RawCoworker) (totalItems : Int) (tj : TokenJson)
    (now : Int) (tok : NexudusBearerToken)
    (c1 c2 c3 : List NexudusCoworker)
    (h1 : (recs 1).mapM NexudusCoworker.from_json = some c1)
    (h2 : (recs 2).mapM NexudusCoworker.from_json = some c2)
    (h3 : (recs 3).mapM NexudusCoworker.from_json = some c3) :
    ∃ s1 s2 : FetchState,
      fetchStep (threePageServer401 recs totalItems) (okTokenServer tj) now
          (initState tok) = Except.ok s1 ∧
      fetchStep (threePageServer401 recs totalItems) (okTokenServer tj) now s1 =
        Except.ok s2 ∧
      s1.page = 2 ∧
      s2.all_coworkers = s1.all_coworkers ∧
      s2.page = s1.page ∧
      s2.pages_fetched = s1.pages_fetched ∧
      s2.refreshes = s1.refreshes + 1 ∧
      (∀ fuel : Nat, ∃ sF : FetchState,
        fetchLoop (threePageServer401 recs totalItems) (okTokenServer tj) now (fuel + 4)
            (initState tok) = Except.ok (some sF) ∧
        sF.refreshes = 1 ∧
        sF.requests = [1, 2, 2, 3] ∧
        sF.all_coworkers = c1 ++ c2 ++ c3) := by
  have h1l : List.mapM.loop NexudusCoworker.from_json (recs 1) [] = some c1 := h1
  have h2l : List.mapM.loop NexudusCoworker.from_json (recs 2) [] = some c2 := h2
  have h3l : List.mapM.loop NexudusCoworker.from_json (recs 3) [] = some c3 := h3
  have e1 : fetchStep (threePageServer401 recs totalItems) (okTokenServer tj) now
      (initState tok) =
      Except.ok { page := 2, all_coworkers := c1, is_complete := false, pages_fetched := 1,
                  expected_records := some totalItems, token := tok, requests := [1],
                  refreshes := 0 } := by
    simp [fetchStep, initState, threePageServer401, threePageServer, mkListingRequest,
      isSuccessStatus, max_pages, h1l]
  have e2 : fetchStep (threePageServer401 recs totalItems) (okTokenServer tj) now
      { page := 2, all_coworkers := c1, is_complete := false, pages_fetched := 1,
        expected_records := some totalItems, token := tok, requests := [1], refreshes := 0 } =
      Except.ok { page := 2, all_coworkers := c1, is_complete := false, pages_fetched := 1,
                  expected_records := some totalItems,
                  token := NexudusBearerToken.from_json tj now, requests := [1, 2],
                  refreshes := 1 } := by
    simp [fetchStep, threePageServer401, mkListingRequest, isSuccessStatus,
      refresh_bearer_token, okTokenServer, refresh_request_content]
  have e3 : fetchStep (threePageServer401 recs totalItems) (okTokenServer tj) now
      { page := 2, all_coworkers := c1, is_complete := false, pages_fetched := 1,
        expected_records := some totalItems, token := NexudusBearerToken.from_json tj now,
        requests := [1, 2], refreshes := 1 } =
      Except.ok { page := 3, all_coworkers := c1 ++ c2, is_complete := false, pages_fetched := 2,
                  expected_records := some totalItems,
                  token := NexudusBearerToken.from_json tj now, requests := [1, 2, 2],
                  refreshes := 1 } := by
    simp [fetchStep, threePageServer401, threePageServer, mkListingRequest, isSuccessStatus,
      max_pages, h2l]
  have e4 : fetchStep (threePageServer401 recs totalItems) (okTokenServer tj) now
      { page := 3, all_coworkers := c1 ++ c2, is_complete := false, pages_fetched := 2,
        expected_records := some totalItems, token := NexudusBearerToken.from_json tj now,
        requests := [1, 2, 2], refreshes := 1 } =
      Except.ok { page := 3, all_coworkers := c1 ++ c2 ++ c3, is_complete := true,
                  pages_fetched := 3, expected_records := some totalItems,
                  token := NexudusBearerToken.from_json tj now, requests := [1, 2, 2, 3],
                  refreshes := 1 } := by
    simp [fetchStep, threePageServer401, threePageServer, mkListingRequest, isSuccessStatus,
      max_pages, h3l]
  have hrun : ∀ fuel : Nat,
      fetchLoop (threePageServer401 recs totalItems) (okTokenServer tj) now (fuel + 4)
        (initState tok) =
      Except.ok (some { page := 3, all_coworkers := c1 ++ c2 ++ c3, is_complete := true,
                        pages_fetched := 3, expected_records := some totalItems,
                        token := NexudusBearerToken.from_json tj now,
                        requests := [1, 2, 2, 3], refreshes := 1 }) := by
    intro fuel
    have l1 := fetchLoop_step (threePageServer401 recs totalItems) (okTokenServer tj) now
      (fuel + 3) _ _ rfl e1
    have l2 := fetchLoop_step (threePageServer401 recs totalItems) (okTokenServer tj) now
      (fuel + 2) _ _ rfl e2
    have l3 := fetchLoop_step (threePageServer401 recs totalItems) (okTokenServer tj) now
      (fuel + 1) _ _ rfl e3
    have l4 := fetchLoop_step (threePageServer401 recs totalItems) (okTokenServer tj) now
      fuel _ _ rfl e4
    have l5 := fetchLoop_of_complete (threePageServer401 recs totalItems) (okTokenServer tj) now
      fuel { page := 3, all_coworkers := c1 ++ c2 ++ c3, is_complete := true, pages_fetched := 3,
             expected_records := some totalItems, token := NexudusBearerToken.from_json tj now,
             requests := [1, 2, 2, 3], refreshes := 1 } rfl
    exact l1.trans (l2.trans (l3.trans (l4.trans l5)))
  exact ⟨_, _, e1, e2, rfl, rfl, rfl, rfl, rfl, fun fuel => ⟨_, hrun fuel, rfl, rfl, rfl⟩⟩

/-- C3 witness: a concrete run with a 401 on the first page-2 request makes
exactly one refresh call, re-requests page 2, and accumulates each record
once. -/
theorem spec_C3_retry_after_401_witness :
    ∃ s1 s2 : FetchState,
      fetchStep (threePageServer401 demoRecs 3) (okTokenServer demoTokenJson) 0
          (initState demoToken) = Except.ok s1 ∧
      fetchStep (threePageServer401 demoRecs 3) (okTokenServer demoTokenJson) 0 s1 =
        Except.ok s2 ∧
      s1.page = 2 ∧
      s2.all_coworkers = s1.all_coworkers ∧
      s2.page = s1.page ∧
      s2.pages_fetched = s1.pages_fetched ∧
      s2.refreshes = s1.refreshes + 1 ∧
      (∀ fuel : Nat, ∃ sF : FetchState,
        fetchLoop (threePageServer401 demoRecs 3) (okTokenServer demoTokenJson) 0 (fuel + 4)
            (initState demoToken) = Except.ok (some sF) ∧
        sF.refreshes = 1 ∧
        sF.requests = [1, 2, 2, 3] ∧
        sF.all_coworkers =
          [⟨"person", 1, ∅, "person@example.com"⟩] ++ [⟨"person", 2, ∅, "person@example.com"⟩] ++
            [⟨"person", 3, ∅, "person@example.com"⟩]) :=
  spec_C3_retry_after_401 demoRecs 3 demoTokenJson 0 demoToken
    _ _ _ (by simp [demoRecs, NexudusCoworker.from_json]; rfl)
    (by simp [demoRecs, NexudusCoworker.from_json]; rfl)
    (by simp [demoRecs, NexudusCoworker.from_json]; rfl)

/-- C4: if the listing request issued from any mid-fetch state is answered
with a non-success status other than 401, the iteration raises
`RequestError`, the loop propagates it unchanged for any remaining fuel,
and the caller never observes an `ok` payload — no partial coworker
sequence is returned (`get_all_coworkers` only maps over the `ok` case, so
its result is the same bare `RequestError`). -/
theorem spec_C4_non_401_failure_aborts
    (listServer : Nat → ListingRequest → ListingResponse)
    (tokenServer : String → TokenResponse) (now : Int) (s : FetchState)
    (hflag : s.is_complete = false)
    (hfail : isSuccessStatus (listServer s.requests.length (mkListingRequest s)).status = false)
    (h401 : (listServer s.requests.length (mkListingRequest s)).status ≠ 401) :
    fetchStep listServer tokenServer now s =
      Except.error (FetchError.requestError
        (listServer s.requests.length (mkListingRequest s)).status) ∧
    ∀ fuel : Nat,
      fetchLoop listServer tokenServer now (fuel + 1) s =
        Except.error (FetchError.requestError
          (listServer s.requests.length (mkListingRequest s)).status) ∧
      ∀ o : Option FetchState, fetchLoop listServer tokenServer now (fuel + 1) s ≠ Except.ok o := by
  have hstep : fetchStep listServer tokenServer now s =
      Except.error (FetchError.requestError
        (listServer s.requests.length (mkListingRequest s)).status) := by
    simp [fetchStep, hfail, h401]
  refine ⟨hstep, fun fuel => ?_⟩
  have hloop := fetchLoop_error listServer tokenServer now fuel s _ hflag hstep
  exact ⟨hloop, fun o h => by simp [hloop] at h⟩

/-- C4 witness: a concrete server answering every request with HTTP 500
makes the first iteration raise `RequestError 500` and the whole loop
return that error. -/
theorem spec_C4_non_401_failure_aborts_witness :
    fetchStep always500Server (okTokenServer demoTokenJson) 0 (initState demoToken) =
      Except.error (FetchError.requestError 500) ∧
    fetchLoop always500Server (okTokenServer demoTokenJson) 0 (0 + 1) (initState demoToken) =
      Except.error (FetchError.requestError 500) :=
  ⟨(spec_C4_non_401_failure_aborts always500Server (okTokenServer demoTokenJson) 0
      (initState demoToken) rfl rfl (by decide)).1,
   ((spec_C4_non_401_failure_aborts always500Server (okTokenServer demoTokenJson) 0
      (initState demoToken) rfl rfl (by decide)).2 0).1⟩

/-- C5: if the token endpoint answers the refresh request with a
non-success status, `refresh_bearer_token` raises `AuthenticationError`
and the held token after the call equals the token held before it — no
partial mutation. -/
theorem spec_C5_failed_refresh_keeps_token
    (tokenServer : String → TokenResponse) (now : Int) (current : NexudusBearerToken)
    (hfail : isSuccessStatus (tokenServer (refresh_request_content current)).status = false) :
    refresh_bearer_token tokenServer now current =
      (Except.error (FetchError.authenticationError
        (tokenServer (refresh_request_content current)).status), current) := by
  simp [refresh_bearer_token, hfail]

/-- C5 witness: a refresh built from an empty refresh token, rejected by the
endpoint with HTTP 400, raises `AuthenticationError` and leaves the held
token exactly as it was. -/
theorem spec_C5_failed_refresh_keeps_token_witness :
    refresh_bearer_token (constTokenServer 400 demoTokenJson) 0
        { access_token := "acc", refresh_token := "", expires_in_ms := 10,
          issued_at := 0, expires_at := 10 } =
      (Except.error (FetchError.authenticationError 400),
       { access_token := "acc", refresh_token := "", expires_in_ms := 10,
         issued_at := 0, expires_at := 10 }) :=
  spec_C5_failed_refresh_keeps_token (constTokenServer 400 demoTokenJson) 0
    { access_token := "acc", refresh_token := "", expires_in_ms := 10,
      issued_at := 0, expires_at := 10 } rfl

/-- C6 (counterexample, code bug): the refresh body the code builds for a
held token with refresh-token value `"abc"` is
`grant_type=refresh_token&refresh_token=fabc` — the f-string inserts a
stray literal `f` before the token value — which differs from the body the
spec describes (`specRefreshRequestContent`, the token value verbatim). -/
theorem spec_C6_refresh_body_has_stray_prefix :
    refresh_request_content
        { access_token := "acc", refresh_token := "abc", expires_in_ms := 10,
          issued_at := 0, expires_at := 10 } =
      "grant_type=refresh_token&refresh_token=fabc" ∧
    specRefreshRequestContent
        { access_token := "acc", refresh_token := "abc", expires_in_ms := 10,
          issued_at := 0, expires_at := 10 } =
      "grant_type=refresh_token&refresh_token=abc" ∧
    refresh_request_content
        { access_token := "acc", refresh_token := "abc", expires_in_ms := 10,
          issued_at := 0, expires_at := 10 } ≠
      specRefreshRequestContent
        { access_token := "acc", refresh_token := "abc", expires_in_ms := 10,
          issued_at := 0, expires_at := 10 } := by
  refine ⟨rfl, rfl, ?_⟩
  decide

/-- Under the all-401 server with an always-succeeding token endpoint, one
loop iteration only refreshes the token and records the retried request:
the flag, cursor, accumulator and page counter are untouched. -/
lemma fetchStep_always401 (tj : TokenJson) (now : Int) (s : FetchState) :
    fetchStep always401Server (okTokenServer tj) now s =
      Except.ok { s with token := NexudusBearerToken.from_json tj now,
                         requests := s.requests ++ [s.page],
                         refreshes := s.refreshes + 1 } := by
  simp [fetchStep, always401Server, mkListingRequest, isSuccessStatus,
    refresh_bearer_token, okTokenServer]

/-- C7: against a server answering every listing request with HTTP 401 and
a token endpoint whose refresh always succeeds, `get_all_coworkers` never
completes: for every iteration count `n`, the loop exhausts its fuel with
no result returned (`.ok none`), and the state reached after `n` iterations
still has the completion flag unset — the 401-retry loop is unbounded. -/
theorem spec_C7_unbounded_401_retry (tj : TokenJson) (now : Int)
    (tok : NexudusBearerToken) (n : Nat) :
    fetchLoop always401Server (okTokenServer tj) now n (initState tok) = Except.ok none ∧
    ∃ s : FetchState,
      fetchIterate always401Server (okTokenServer tj) now n (initState tok) = Except.ok s ∧
      s.is_complete = false := by
  suffices h : ∀ (m : Nat) (s : FetchState), s.is_complete = false →
      fetchLoop always401Server (okTokenServer tj) now m s = Except.ok none ∧
      ∃ s2 : FetchState,
        fetchIterate always401Server (okTokenServer tj) now m s = Except.ok s2 ∧
        s2.is_complete = false by
    exact h n (initState tok) rfl
  intro m
  induction m with
  | zero =>
    intro s hs
    exact ⟨by simp [fetchLoop, hs], s, rfl, hs⟩
  | succ m ih =>
    intro s hs
    have hstep := fetchStep_always401 tj now s
    obtain ⟨hl, s2, hi, hs2⟩ := ih
      { s with token := NexudusBearerToken.from_json tj now,
               requests := s.requests ++ [s.page], refreshes := s.refreshes + 1 } hs
    refine ⟨?_, s2, ?_, hs2⟩
    · rw [fetchLoop_step always401Server (okTokenServer tj) now m s _ hs hstep]
      exact hl
    · simp [fetchIterate, hstep, hi]

/-- C8: parsing a coworker record whose `TeamIds` is the empty string or
null yields an empty team-id set, and parsing one whose `TeamIds` is
`"3,7,7"` yields exactly the set `{3, 7}` — the integer values of the
comma-separated segments with duplicates collapsed. -/
theorem spec_C8_team_ids_parsing (name : String) (id : Int) (email : String) :
    NexudusCoworker.from_json { fullName := name, id := id, teamIds := some "", email := email } =
      some { display_name := name, coworker_id := id, team_ids := ∅, email_address := email } ∧
    NexudusCoworker.from_json { fullName := name, id := id, teamIds := none, email := email } =
      some { display_name := name, coworker_id := id, team_ids := ∅, email_address := email } ∧
    NexudusCoworker.from_json { fullName := name, id := id, teamIds := some "3,7,7", email := email } =
      some { display_name := name, coworker_id := id, team_ids := {3, 7},
             email_address := email } := by
  refine ⟨rfl, rfl, ?_⟩
  simp [NexudusCoworker.from_json]
  decide

/-- C9: the diagnostic string representation of a token renders both secret
fields as the fixed redaction marker, so it depends only on the non-secret
fields — two tokens differing only in their access/refresh token values
produce identical representations, revealing nothing about the secrets. -/
theorem spec_C9_secret_redaction (t1 t2 : NexudusBearerToken)
    (hms : t1.expires_in_ms = t2.expires_in_ms)
    (hiss : t1.issued_at = t2.issued_at)
    (hexp : t1.expires_at = t2.expires_at) :
    tokenRepr t1 = tokenRepr t2 := by
  simp [tokenRepr, redactSecret, hms, hiss, hexp]

/-- C9 witness: two concrete tokens that differ in both secret values have
the same rendered representation. -/
theorem spec_C9_secret_redaction_witness :
    tokenRepr { access_token := "topsecretA", refresh_token := "topsecretB",
                expires_in_ms := 5, issued_at := 1, expires_at := 6 } =
      tokenRepr { access_token := "otherA", refresh_token := "otherB",
                  expires_in_ms := 5, issued_at := 1, expires_at := 6 } :=
  spec_C9_secret_redaction
    { access_token := "topsecretA", refresh_token := "topsecretB",
      expires_in_ms := 5, issued_at := 1, expires_at := 6 }
    { access_token := "otherA", refresh_token := "otherB",
      expires_in_ms := 5, issued_at := 1, expires_at := 6 } rfl rfl rfl

/-- `mapM` over `Option` succeeds exactly when the function succeeds on
every list element. -/
lemma mapM_option_isSome {α β : Type} (f : α → Option β) (l : List α) :
    (l.mapM f).isSome = l.all fun a => (f a).isSome := by
  rw [← List.mapM'_eq_mapM]
  induction l with
  | nil => rfl
  | cons a l ih =>
    simp only [List.mapM'_cons, List.all_cons, ← ih]
    cases hfa : f a <;> cases hml : l.mapM' f <;> simp [hfa, hml]

/-- C10: `NexudusCoworker.from_json` is partial on the `TeamIds` field — it
returns a coworker exactly when `TeamIds` is null, the empty string, or a
non-empty string all of whose comma-separated segments parse as integers;
for every non-empty `TeamIds` with a segment `int(...)` rejects (such as
`"3,"` or `","`), it raises instead of returning a coworker. -/
theorem spec_C10_partial_team_ids_parse (r : RawCoworker) :
    (NexudusCoworker.from_json r).isSome = true ↔
      (r.teamIds = none ∨ r.teamIds = some "" ∨
       ∃ s : String, r.teamIds = some s ∧ s ≠ "" ∧
         ∀ seg ∈ pySplit ',' s, (pyInt seg).isSome = true) := by
  cases hr : r.teamIds with
  | none => simp [NexudusCoworker.from_json, hr]
  | some s =>
    by_cases hs : s = ""
    · subst hs
      simp [NexudusCoworker.from_json, hr]
    · have hml : (List.mapM.loop pyInt (pySplit ',' s) []).isSome
          = (pySplit ',' s).all fun seg => (pyInt seg).isSome :=
        mapM_option_isSome pyInt (pySplit ',' s)
      simp [NexudusCoworker.from_json, hr, hs, hml, List.all_eq_true]

/-- C7 witness: a concrete all-401 run observed for 3 iterations: no result
yet, completion flag still unset. -/
theorem spec_C7_unbounded_401_retry_witness :
    fetchLoop always401Server (okTokenServer demoTokenJson) 0 3 (initState demoToken) =
      Except.ok none ∧
    ∃ s : FetchState,
      fetchIterate always401Server (okTokenServer demoTokenJson) 0 3 (initState demoToken) =
        Except.ok s ∧
      s.is_complete = false :=
  spec_C7_unbounded_401_retry demoTokenJson 0 demoToken 3

/-- C8 witness: the three parsing facts at a concrete record. -/
theorem spec_C8_team_ids_parsing_witness :
    NexudusCoworker.from_json
        { fullName := "Ada", id := 1, teamIds := some "", email := "ada@example.com" } =
      some { display_name := "Ada", coworker_id := 1, team_ids := ∅,
             email_address := "ada@example.com" } ∧
    NexudusCoworker.from_json
        { fullName := "Ada", id := 1, teamIds := none, email := "ada@example.com" } =
      some { display_name := "Ada", coworker_id := 1, team_ids := ∅,
             email_address := "ada@example.com" } ∧
    NexudusCoworker.from_json
        { fullName := "Ada", id := 1, teamIds := some "3,7,7", email := "ada@example.com" } =
      some { display_name := "Ada", coworker_id := 1, team_ids := {3, 7},
             email_address := "ada@example.com" } :=
  spec_C8_team_ids_parsing "Ada" 1 "ada@example.com"

/-- C10 witness: the partiality characterisation at a concrete record whose
`TeamIds` is `"3,"` (its second segment is empty, so `int(...)` rejects it
and the parse yields no coworker). -/
theorem spec_C10_partial_team_ids_parse_witness :
    ((NexudusCoworker.from_json
        { fullName := "Ada", id := 1, teamIds := some "3,", email := "ada@example.com" }).isSome
          = true ↔
      (({ fullName := "Ada", id := 1, teamIds := some "3,",
          email := "ada@example.com" } : RawCoworker).teamIds = none ∨
       ({ fullName := "Ada", id := 1, teamIds := some "3,",
          email := "ada@example.com" } : RawCoworker).teamIds = some "" ∨
       ∃ s : String,
         ({ fullName := "Ada", id := 1, teamIds := some "3,",
            email := "ada@example.com" } : RawCoworker).teamIds = some s ∧ s ≠ "" ∧
         ∀ seg ∈ pySplit ',' s, (pyInt seg).isSome = true)) ∧
    NexudusCoworker.from_json
        { fullName := "Ada", id := 1, teamIds := some "3,", email := "ada@example.com" } =
      none :=
  ⟨spec_C10_partial_team_ids_parse
      { fullName := "Ada", id := 1, teamIds := some "3,", email := "ada@example.com" },
   by decide⟩
